import Mathlib

/-!
Shallow embedding of the CSS-selector builder from `src/objects-tasks.js`
(class `CSSSelector` and the object `cssSelectorBuilder`).

The JavaScript methods mutate `this` in place and may throw.  Each method is
embedded as a function `CSSSelector → ... → Option SelErr × CSSSelector`:
the first component is the thrown error (if any), the second the state of the
receiver after the call, with every statement of the method body translated
in source order (so a throw that happens before a mutation leaves the state
unchanged, exactly as in the source).  JavaScript strings are Lean `String`s;
the nullable `element` and `id` slots are `Option String`, and a JavaScript
truthiness test on such a slot (`if (this.parts.element)`) is embedded by
`truthy`, which is false on `none` (null) and on the empty string.
-/

/-- Category keys, the strings pushed onto `this.order` in the source
(`element`, `id`, `classes`, `attributes`, `pseudoClasses`, `pseudoElements`). -/
inductive PartKey where
  | element
  | id
  | classes
  | attributes
  | pseudoClasses
  | pseudoElements
deriving DecidableEq, Repr

/-- The `orderMap` table from `CSSSelector.checkOrder`. -/
def orderMap : PartKey → Nat
  | PartKey.element => 1
  | PartKey.id => 2
  | PartKey.classes => 3
  | PartKey.attributes => 4
  | PartKey.pseudoClasses => 5
  | PartKey.pseudoElements => 6

/-- The two error kinds thrown by the source.  `duplicate` is the Error with
message "Element, id and pseudo-element should not occur more then one time
inside the selector" (the spec's `DuplicateFragmentError`); `orderViolation`
is the Error with message "Selector parts should be arranged in the following
order: ..." (the spec's `OrderError`). -/
inductive SelErr where
  | duplicate
  | orderViolation
deriving DecidableEq, Repr

/-- The `this.parts` record initialised in the `CSSSelector` constructor. -/
structure SelectorParts where
  element : Option String
  id : Option String
  classes : List String
  attributes : List String
  pseudoClasses : List String
  pseudoElements : List String
deriving DecidableEq, Repr

/-- State of one `CSSSelector` instance: the `parts` record plus the
`this.order` history array. -/
structure CSSSelector where
  parts : SelectorParts
  order : List PartKey
deriving DecidableEq, Repr

/-- JavaScript truthiness of a nullable string slot: `null` and `""` are
falsy, every other string is truthy. -/
def truthy : Option String → Bool
  | none => false
  | some s => !s.isEmpty

namespace CSSSelector

/-- Constructor `new CSSSelector()`: all slots null/empty, empty order history. -/
def new : CSSSelector :=
  { parts := { element := none, id := none, classes := [], attributes := [],
               pseudoClasses := [], pseudoElements := [] },
    order := [] }

/-- Method `checkOrder(part)`: throws when the order array is non-empty and the new
part's rank is below the rank of its last entry; otherwise pushes `part`. -/
def checkOrder (s : CSSSelector) (part : PartKey) : Option SelErr × CSSSelector :=
  match s.order.getLast? with
  | some last =>
      if orderMap part < orderMap last then
        (some SelErr.orderViolation, s)
      else
        (none, { s with order := s.order ++ [part] })
  | none => (none, { s with order := s.order ++ [part] })

/-- Method `element(value)`: duplicate check on the truthiness of `this.parts.element`,
then `checkOrder('element')`, then `this.parts.element = value`. -/
def element (s : CSSSelector) (value : String) : Option SelErr × CSSSelector :=
  if truthy s.parts.element then
    (some SelErr.duplicate, s)
  else
    match checkOrder s PartKey.element with
    | (some e, s1) => (some e, s1)
    | (none, s1) => (none, { s1 with parts := { s1.parts with element := some value } })

/-- Method `id(value)`: duplicate check on the truthiness of `this.parts.id`,
then `checkOrder('id')`, then `this.parts.id = value`. -/
def id (s : CSSSelector) (value : String) : Option SelErr × CSSSelector :=
  if truthy s.parts.id then
    (some SelErr.duplicate, s)
  else
    match checkOrder s PartKey.id with
    | (some e, s1) => (some e, s1)
    | (none, s1) => (none, { s1 with parts := { s1.parts with id := some value } })

/-- Method `class(value)` (written `class'` since `class` is a Lean keyword):
`checkOrder('classes')`, then push `value` onto `this.parts.classes`. -/
def class' (s : CSSSelector) (value : String) : Option SelErr × CSSSelector :=
  match checkOrder s PartKey.classes with
  | (some e, s1) => (some e, s1)
  | (none, s1) => (none, { s1 with parts := { s1.parts with classes := s1.parts.classes ++ [value] } })

/-- Method `attr(value)`: `checkOrder('attributes')`, then push onto
`this.parts.attributes`. -/
def attr (s : CSSSelector) (value : String) : Option SelErr × CSSSelector :=
  match checkOrder s PartKey.attributes with
  | (some e, s1) => (some e, s1)
  | (none, s1) => (none, { s1 with parts := { s1.parts with attributes := s1.parts.attributes ++ [value] } })

/-- Method `pseudoClass(value)`: `checkOrder('pseudoClasses')`, then push onto
`this.parts.pseudoClasses`. -/
def pseudoClass (s : CSSSelector) (value : String) : Option SelErr × CSSSelector :=
  match checkOrder s PartKey.pseudoClasses with
  | (some e, s1) => (some e, s1)
  | (none, s1) => (none, { s1 with parts := { s1.parts with pseudoClasses := s1.parts.pseudoClasses ++ [value] } })

/-- Method `pseudoElement(value)`: duplicate check on
`this.parts.pseudoElements.length > 0`, then `checkOrder('pseudoElements')`,
then push onto `this.parts.pseudoElements`. -/
def pseudoElement (s : CSSSelector) (value : String) : Option SelErr × CSSSelector :=
  if s.parts.pseudoElements.length > 0 then
    (some SelErr.duplicate, s)
  else
    match checkOrder s PartKey.pseudoElements with
    | (some e, s1) => (some e, s1)
    | (none, s1) => (none, { s1 with parts := { s1.parts with pseudoElements := s1.parts.pseudoElements ++ [value] } })

/-- Method `stringify()`: builds the local `parts` array (element if truthy, `#`+id
if truthy, then the mapped classes, attributes, pseudo-classes and
pseudo-elements) and joins it with the empty separator. -/
def stringify (s : CSSSelector) : String :=
  let parts : List String :=
    (if truthy s.parts.element then [s.parts.element.getD ""] else [])
    ++ (if truthy s.parts.id then ["#" ++ s.parts.id.getD ""] else [])
    ++ s.parts.classes.map (fun className => "." ++ className)
    ++ s.parts.attributes.map (fun a => "[" ++ a ++ "]")
    ++ s.parts.pseudoClasses.map (fun pc => ":" ++ pc)
    ++ s.parts.pseudoElements.map (fun pe => "::" ++ pe)
  String.join parts

/-- Method `stringify()` viewed as a method call on the instance: it returns the
produced string together with the state of `this` after the call.  The method
body only reads `this.parts` (the `parts` array it pushes to is a local),
so the state after the call is the state before it. -/
def stringifyM (s : CSSSelector) : String × CSSSelector :=
  (stringify s, s)

end CSSSelector

namespace cssSelectorBuilder

/-- Factory `cssSelectorBuilder.element(value)`: `new CSSSelector().element(value)`. -/
def element (value : String) : Option SelErr × CSSSelector :=
  CSSSelector.new.element value

/-- Factory `cssSelectorBuilder.id(value)`: `new CSSSelector().id(value)`. -/
def id (value : String) : Option SelErr × CSSSelector :=
  CSSSelector.new.id value

/-- Factory `cssSelectorBuilder.class(value)`: `new CSSSelector().class(value)`. -/
def class' (value : String) : Option SelErr × CSSSelector :=
  CSSSelector.new.class' value

/-- Factory `cssSelectorBuilder.attr(value)`: `new CSSSelector().attr(value)`. -/
def attr (value : String) : Option SelErr × CSSSelector :=
  CSSSelector.new.attr value

/-- Factory `cssSelectorBuilder.pseudoClass(value)`: `new CSSSelector().pseudoClass(value)`. -/
def pseudoClass (value : String) : Option SelErr × CSSSelector :=
  CSSSelector.new.pseudoClass value

/-- Factory `cssSelectorBuilder.pseudoElement(value)`: `new CSSSelector().pseudoElement(value)`. -/
def pseudoElement (value : String) : Option SelErr × CSSSelector :=
  CSSSelector.new.pseudoElement value

/-- Combinator `cssSelectorBuilder.combine(selector1, combinator, selector2)`: creates a
fresh `CSSSelector` and writes the string
`selector1.stringify() + " " + combinator + " " + selector2.stringify()`
directly into its `parts.element` slot (no `checkOrder`, no history entry). -/
def combine (selector1 : CSSSelector) (combinator : String)
    (selector2 : CSSSelector) : CSSSelector :=
  let combined := CSSSelector.new
  { combined with parts := { combined.parts with
      element := some (selector1.stringify ++ " " ++ combinator ++ " " ++ selector2.stringify) } }

end cssSelectorBuilder

/-- One append call on a builder, tagged by which of the six chain methods is
invoked and with which string argument.  (`class'` stands for the source's
`class` method.) -/
inductive AppendOp where
  | element (value : String)
  | id (value : String)
  | class' (value : String)
  | attr (value : String)
  | pseudoClass (value : String)
  | pseudoElement (value : String)
deriving DecidableEq, Repr

/-- Dispatch one append call to the corresponding method. -/
def appendOp (s : CSSSelector) : AppendOp → Option SelErr × CSSSelector
  | AppendOp.element v => s.element v
  | AppendOp.id v => s.id v
  | AppendOp.class' v => s.class' v
  | AppendOp.attr v => s.attr v
  | AppendOp.pseudoClass v => s.pseudoClass v
  | AppendOp.pseudoElement v => s.pseudoElement v

/-- Run a chain of append calls, stopping at the first thrown error (a throw
aborts the fluent chain; the state at the throw is returned). -/
def runOps (s : CSSSelector) : List AppendOp → Option SelErr × CSSSelector
  | [] => (none, s)
  | op :: rest =>
      match appendOp s op with
      | (some e, s1) => (some e, s1)
      | (none, s1) => runOps s1 rest

/-- Category key of an append call. -/
def opKey : AppendOp → PartKey
  | AppendOp.element _ => PartKey.element
  | AppendOp.id _ => PartKey.id
  | AppendOp.class' _ => PartKey.classes
  | AppendOp.attr _ => PartKey.attributes
  | AppendOp.pseudoClass _ => PartKey.pseudoClasses
  | AppendOp.pseudoElement _ => PartKey.pseudoElements

/-- Whether the duplicate guard at the top of the corresponding source method
fires in state `s`: `element` and `id` test the truthiness of their slot,
`pseudoElement` tests `this.parts.pseudoElements.length > 0`, and the other
three methods have no duplicate guard. -/
def dupCheck (s : CSSSelector) : AppendOp → Bool
  | AppendOp.element _ => truthy s.parts.element
  | AppendOp.id _ => truthy s.parts.id
  | AppendOp.class' _ => false
  | AppendOp.attr _ => false
  | AppendOp.pseudoClass _ => false
  | AppendOp.pseudoElement _ => decide (s.parts.pseudoElements.length > 0)

/-- Combine the value a later part of a chain leaves in a single-value slot
with the value an earlier append wrote there: the later one wins when set. -/
def overrideOpt (newer old : Option String) : Option String :=
  match newer with
  | some v => some v
  | none => old

/-- Value of the last `element` append in a chain, if any. -/
def opLastElement : List AppendOp → Option String
  | [] => none
  | AppendOp.element v :: rest => overrideOpt (opLastElement rest) (some v)
  | _ :: rest => opLastElement rest

/-- Value of the last `id` append in a chain, if any. -/
def opLastId : List AppendOp → Option String
  | [] => none
  | AppendOp.id v :: rest => overrideOpt (opLastId rest) (some v)
  | _ :: rest => opLastId rest

/-- Values of the `class` appends of a chain, in append order. -/
def opClasses : List AppendOp → List String
  | [] => []
  | AppendOp.class' v :: rest => v :: opClasses rest
  | _ :: rest => opClasses rest

/-- Values of the `attr` appends of a chain, in append order. -/
def opAttributes : List AppendOp → List String
  | [] => []
  | AppendOp.attr v :: rest => v :: opAttributes rest
  | _ :: rest => opAttributes rest

/-- Values of the `pseudoClass` appends of a chain, in append order. -/
def opPseudoClasses : List AppendOp → List String
  | [] => []
  | AppendOp.pseudoClass v :: rest => v :: opPseudoClasses rest
  | _ :: rest => opPseudoClasses rest

/-- Values of the `pseudoElement` appends of a chain, in append order. -/
def opPseudoElements : List AppendOp → List String
  | [] => []
  | AppendOp.pseudoElement v :: rest => v :: opPseudoElements rest
  | _ :: rest => opPseudoElements rest

/-- Rendering of an optional single-value slot with prefix `pre`: empty when
the slot is absent or holds the empty string (falsy), `pre ++ v` otherwise. -/
def renderOpt (pre : String) : Option String → String
  | none => ""
  | some v => if v.isEmpty then "" else pre ++ v

/-! ### Helper lemmas about strings and the embedded operations -/

/-- Joining strings concatenates their character data. -/
theorem join_append (xs ys : List String) :
    String.join (xs ++ ys) = String.join xs ++ String.join ys := by
  apply String.ext
  simp [String.join_eq, String.data_append]

/-- A string of the shape `a ++ " " ++ c ++ " " ++ b` is never empty. -/
theorem combined_isEmpty_false (a c b : String) :
    (a ++ " " ++ c ++ " " ++ b).isEmpty = false := by
  rw [Bool.eq_false_iff]
  intro h
  have h2 : a ++ " " ++ c ++ " " ++ b = "" := (String.isEmpty_iff _).1 h
  have h3 := congrArg String.data h2
  simp [String.data_append] at h3

/-- Joining a one-element list gives back the element. -/
theorem join_singleton (x : String) : String.join [x] = x := by
  apply String.ext
  simp [String.join_eq]

/-- The element slot's contribution to `stringify` equals `renderOpt ""`. -/
theorem join_element_slot (e : Option String) :
    String.join (if truthy e then [e.getD ""] else []) = renderOpt "" e := by
  cases e with
  | none => rfl
  | some v =>
      by_cases hv : v.isEmpty
      · simp [truthy, hv, renderOpt, String.join]
      · simp [truthy, hv, renderOpt, join_singleton, String.empty_append]

/-- The id slot's contribution to `stringify` equals `renderOpt "#"`. -/
theorem join_id_slot (e : Option String) :
    String.join (if truthy e then ["#" ++ e.getD ""] else []) = renderOpt "#" e := by
  cases e with
  | none => rfl
  | some v =>
      by_cases hv : v.isEmpty
      · simp [truthy, hv, renderOpt, String.join]
      · simp [truthy, hv, renderOpt, join_singleton]

/-- Evaluating `checkOrder` when the history is non-empty: compare against the rank of
the last entry. -/
theorem checkOrder_last (s : CSSSelector) (k : PartKey) (last : PartKey)
    (hl : s.order.getLast? = some last) :
    CSSSelector.checkOrder s k =
      if orderMap k < orderMap last then (some SelErr.orderViolation, s)
      else (none, { s with order := s.order ++ [k] }) := by
  unfold CSSSelector.checkOrder
  rw [hl]

/-- Evaluating `checkOrder` on an empty history: it always accepts. -/
theorem checkOrder_empty (s : CSSSelector) (k : PartKey)
    (hl : s.order.getLast? = none) :
    CSSSelector.checkOrder s k = (none, { s with order := s.order ++ [k] }) := by
  unfold CSSSelector.checkOrder
  rw [hl]

/-- Result of `checkOrder`: it either rejects leaving the state unchanged, or accepts and
only appends to the history. -/
theorem checkOrder_cases (s : CSSSelector) (k : PartKey) :
    CSSSelector.checkOrder s k = (some SelErr.orderViolation, s) ∨
    CSSSelector.checkOrder s k = (none, { s with order := s.order ++ [k] }) := by
  rcases hl : s.order.getLast? with _ | last
  · exact Or.inr (checkOrder_empty s k hl)
  · rw [checkOrder_last s k last hl]
    by_cases hlt : orderMap k < orderMap last
    · exact Or.inl (by simp [hlt])
    · exact Or.inr (by simp [hlt])

/-- Successful `element` append: the element slot is set and the category is
recorded; nothing else changes. -/
theorem element_ok (s : CSSSelector) (v : String) (s1 : CSSSelector)
    (h : CSSSelector.element s v = (none, s1)) :
    s1 = { s with parts := { s.parts with element := some v },
                  order := s.order ++ [PartKey.element] } := by
  unfold CSSSelector.element at h
  by_cases hg : truthy s.parts.element
  · simp [hg] at h
  · rw [if_neg hg] at h
    rcases checkOrder_cases s PartKey.element with hc | hc <;> rw [hc] at h <;> simp at h
    exact h.symm

/-- Successful `id` append: the id slot is set and the category is recorded;
nothing else changes. -/
theorem id_ok (s : CSSSelector) (v : String) (s1 : CSSSelector)
    (h : CSSSelector.id s v = (none, s1)) :
    s1 = { s with parts := { s.parts with id := some v },
                  order := s.order ++ [PartKey.id] } := by
  unfold CSSSelector.id at h
  by_cases hg : truthy s.parts.id
  · simp [hg] at h
  · rw [if_neg hg] at h
    rcases checkOrder_cases s PartKey.id with hc | hc <;> rw [hc] at h <;> simp at h
    exact h.symm

/-- Successful `class` append: the value is pushed onto `classes` and the
category is recorded; nothing else changes. -/
theorem class_ok (s : CSSSelector) (v : String) (s1 : CSSSelector)
    (h : CSSSelector.class' s v = (none, s1)) :
    s1 = { s with parts := { s.parts with classes := s.parts.classes ++ [v] },
                  order := s.order ++ [PartKey.classes] } := by
  unfold CSSSelector.class' at h
  rcases checkOrder_cases s PartKey.classes with hc | hc <;> rw [hc] at h <;> simp at h
  exact h.symm

/-- Successful `attr` append: the value is pushed onto `attributes` and the
category is recorded; nothing else changes. -/
theorem attr_ok (s : CSSSelector) (v : String) (s1 : CSSSelector)
    (h : CSSSelector.attr s v = (none, s1)) :
    s1 = { s with parts := { s.parts with attributes := s.parts.attributes ++ [v] },
                  order := s.order ++ [PartKey.attributes] } := by
  unfold CSSSelector.attr at h
  rcases checkOrder_cases s PartKey.attributes with hc | hc <;> rw [hc] at h <;> simp at h
  exact h.symm

/-- Successful `pseudoClass` append: the value is pushed onto `pseudoClasses`
and the category is recorded; nothing else changes. -/
theorem pseudoClass_ok (s : CSSSelector) (v : String) (s1 : CSSSelector)
    (h : CSSSelector.pseudoClass s v = (none, s1)) :
    s1 = { s with parts := { s.parts with pseudoClasses := s.parts.pseudoClasses ++ [v] },
                  order := s.order ++ [PartKey.pseudoClasses] } := by
  unfold CSSSelector.pseudoClass at h
  rcases checkOrder_cases s PartKey.pseudoClasses with hc | hc <;> rw [hc] at h <;> simp at h
  exact h.symm

/-- Successful `pseudoElement` append: the value is pushed onto
`pseudoElements` and the category is recorded; nothing else changes. -/
theorem pseudoElement_ok (s : CSSSelector) (v : String) (s1 : CSSSelector)
    (h : CSSSelector.pseudoElement s v = (none, s1)) :
    s1 = { s with parts := { s.parts with pseudoElements := s.parts.pseudoElements ++ [v] },
                  order := s.order ++ [PartKey.pseudoElements] } := by
  unfold CSSSelector.pseudoElement at h
  by_cases hg : s.parts.pseudoElements.length > 0
  · simp [hg] at h
  · rw [if_neg hg] at h
    rcases checkOrder_cases s PartKey.pseudoElements with hc | hc <;> rw [hc] at h <;> simp at h
    exact h.symm

/-- C4: whenever an append raises either error, the builder's state — all
six part slots and the append history — is exactly what it was before the
failed call: every throw in the source happens before any mutation of
`this`, so the rejected fragment is not applied in whole or in part. -/
theorem C4_failed_append_state (s : CSSSelector) (op : AppendOp) (e : SelErr)
    (h : (appendOp s op).1 = some e) : (appendOp s op).2 = s := by
  cases op with
  | element v =>
      simp only [appendOp] at h ⊢
      unfold CSSSelector.element at h ⊢
      by_cases hg : truthy s.parts.element
      · simp [hg]
      · rw [if_neg hg] at h ⊢
        rcases checkOrder_cases s PartKey.element with hc | hc <;> rw [hc] at h ⊢ <;> simp at h ⊢
  | id v =>
      simp only [appendOp] at h ⊢
      unfold CSSSelector.id at h ⊢
      by_cases hg : truthy s.parts.id
      · simp [hg]
      · rw [if_neg hg] at h ⊢
        rcases checkOrder_cases s PartKey.id with hc | hc <;> rw [hc] at h ⊢ <;> simp at h ⊢
  | class' v =>
      simp only [appendOp] at h ⊢
      unfold CSSSelector.class' at h ⊢
      rcases checkOrder_cases s PartKey.classes with hc | hc <;> rw [hc] at h ⊢ <;> simp at h ⊢
  | attr v =>
      simp only [appendOp] at h ⊢
      unfold CSSSelector.attr at h ⊢
      rcases checkOrder_cases s PartKey.attributes with hc | hc <;> rw [hc] at h ⊢ <;> simp at h ⊢
  | pseudoClass v =>
      simp only [appendOp] at h ⊢
      unfold CSSSelector.pseudoClass at h ⊢
      rcases checkOrder_cases s PartKey.pseudoClasses with hc | hc <;> rw [hc] at h ⊢ <;> simp at h ⊢
  | pseudoElement v =>
      simp only [appendOp] at h ⊢
      unfold CSSSelector.pseudoElement at h ⊢
      by_cases hg : s.parts.pseudoElements.length > 0
      · simp [hg]
      · rw [if_neg hg] at h ⊢
        rcases checkOrder_cases s PartKey.pseudoElements with hc | hc <;> rw [hc] at h ⊢ <;> simp at h ⊢

/-- One successful append preserves the truthiness of the `element` and `id`
slots and the non-emptiness of `pseudoElements`. -/
theorem appendOp_preserves (s : CSSSelector) (op : AppendOp) (s1 : CSSSelector)
    (h : appendOp s op = (none, s1)) :
    (truthy s.parts.element = true → truthy s1.parts.element = true) ∧
    (truthy s.parts.id = true → truthy s1.parts.id = true) ∧
    (s.parts.pseudoElements ≠ [] → s1.parts.pseudoElements ≠ []) := by
  cases op with
  | element v =>
      by_cases hg : truthy s.parts.element
      · simp only [appendOp] at h
        unfold CSSSelector.element at h
        simp [hg] at h
      · obtain rfl := element_ok s v s1 h
        exact ⟨fun ht => absurd ht hg, fun ht => ht, fun ht => ht⟩
  | id v =>
      by_cases hg : truthy s.parts.id
      · simp only [appendOp] at h
        unfold CSSSelector.id at h
        simp [hg] at h
      · obtain rfl := id_ok s v s1 h
        exact ⟨fun ht => ht, fun ht => absurd ht hg, fun ht => ht⟩
  | class' v =>
      obtain rfl := class_ok s v s1 h
      exact ⟨fun ht => ht, fun ht => ht, fun ht => ht⟩
  | attr v =>
      obtain rfl := attr_ok s v s1 h
      exact ⟨fun ht => ht, fun ht => ht, fun ht => ht⟩
  | pseudoClass v =>
      obtain rfl := pseudoClass_ok s v s1 h
      exact ⟨fun ht => ht, fun ht => ht, fun ht => ht⟩
  | pseudoElement v =>
      obtain rfl := pseudoElement_ok s v s1 h
      refine ⟨fun ht => ht, fun ht => ht, fun _ => ?_⟩
      simp

/-- Overriding with an already-overridden slot ignores the oldest value. -/
theorem overrideOpt_absorb (x : Option String) (v : String) (old : Option String) :
    overrideOpt (overrideOpt x (some v)) old = overrideOpt x (some v) := by
  cases x <;> rfl

/-- Overriding `none` gives back the chain's own value. -/
theorem overrideOpt_none (x : Option String) : overrideOpt x none = x := by
  cases x <;> rfl

/-- A successful chain of appends preserves truthiness of the `element` and
`id` slots and non-emptiness of `pseudoElements`. -/
theorem runOps_preserves (ops : List AppendOp) :
    ∀ s s' : CSSSelector, runOps s ops = (none, s') →
    (truthy s.parts.element = true → truthy s'.parts.element = true) ∧
    (truthy s.parts.id = true → truthy s'.parts.id = true) ∧
    (s.parts.pseudoElements ≠ [] → s'.parts.pseudoElements ≠ []) := by
  induction ops with
  | nil =>
      intro s s' h
      unfold runOps at h
      simp [Prod.ext_iff] at h
      subst h
      exact ⟨fun ht => ht, fun ht => ht, fun ht => ht⟩
  | cons op rest ih =>
      intro s s' h
      unfold runOps at h
      rcases hstep : appendOp s op with ⟨oe, s1⟩
      rw [hstep] at h
      cases oe with
      | some e => simp at h
      | none =>
          obtain ⟨h1, h2, h3⟩ := appendOp_preserves s op s1 hstep
          obtain ⟨g1, g2, g3⟩ := ih s1 s' h
          exact ⟨fun ht => g1 (h1 ht), fun ht => g2 (h2 ht), fun ht => g3 (h3 ht)⟩

/-- State reached by a successful chain of appends: each single-value slot
holds the last value appended to it (or its previous content), and each list
slot accumulates the chain's values for it in append order. -/
theorem runOps_parts (ops : List AppendOp) :
    ∀ s s' : CSSSelector, runOps s ops = (none, s') →
    s'.parts.element = overrideOpt (opLastElement ops) s.parts.element ∧
    s'.parts.id = overrideOpt (opLastId ops) s.parts.id ∧
    s'.parts.classes = s.parts.classes ++ opClasses ops ∧
    s'.parts.attributes = s.parts.attributes ++ opAttributes ops ∧
    s'.parts.pseudoClasses = s.parts.pseudoClasses ++ opPseudoClasses ops ∧
    s'.parts.pseudoElements = s.parts.pseudoElements ++ opPseudoElements ops := by
  induction ops with
  | nil =>
      intro s s' h
      unfold runOps at h
      simp [Prod.ext_iff] at h
      subst h
      simp [opLastElement, opLastId, opClasses, opAttributes, opPseudoClasses,
        opPseudoElements, overrideOpt]
  | cons op rest ih =>
      intro s s' h
      unfold runOps at h
      rcases hstep : appendOp s op with ⟨oe, s1⟩
      rw [hstep] at h
      cases oe with
      | some e => simp at h
      | none =>
          obtain ⟨g1, g2, g3, g4, g5, g6⟩ := ih s1 s' h
          cases op with
          | element v =>
              obtain rfl := element_ok s v s1 hstep
              exact ⟨by simpa [opLastElement, overrideOpt_absorb] using g1,
                by simpa [opLastId] using g2,
                by simpa [opClasses] using g3,
                by simpa [opAttributes] using g4,
                by simpa [opPseudoClasses] using g5,
                by simpa [opPseudoElements] using g6⟩
          | id v =>
              obtain rfl := id_ok s v s1 hstep
              exact ⟨by simpa [opLastElement] using g1,
                by simpa [opLastId, overrideOpt_absorb] using g2,
                by simpa [opClasses] using g3,
                by simpa [opAttributes] using g4,
                by simpa [opPseudoClasses] using g5,
                by simpa [opPseudoElements] using g6⟩
          | class' v =>
              obtain rfl := class_ok s v s1 hstep
              exact ⟨by simpa [opLastElement] using g1,
                by simpa [opLastId] using g2,
                by simpa [opClasses] using g3,
                by simpa [opAttributes] using g4,
                by simpa [opPseudoClasses] using g5,
                by simpa [opPseudoElements] using g6⟩
          | attr v =>
              obtain rfl := attr_ok s v s1 hstep
              exact ⟨by simpa [opLastElement] using g1,
                by simpa [opLastId] using g2,
                by simpa [opClasses] using g3,
                by simpa [opAttributes] using g4,
                by simpa [opPseudoClasses] using g5,
                by simpa [opPseudoElements] using g6⟩
          | pseudoClass v =>
              obtain rfl := pseudoClass_ok s v s1 hstep
              exact ⟨by simpa [opLastElement] using g1,
                by simpa [opLastId] using g2,
                by simpa [opClasses] using g3,
                by simpa [opAttributes] using g4,
                by simpa [opPseudoClasses] using g5,
                by simpa [opPseudoElements] using g6⟩
          | pseudoElement v =>
              obtain rfl := pseudoElement_ok s v s1 hstep
              exact ⟨by simpa [opLastElement] using g1,
                by simpa [opLastId] using g2,
                by simpa [opClasses] using g3,
                by simpa [opAttributes] using g4,
                by simpa [opPseudoClasses] using g5,
                by simpa [opPseudoElements] using g6⟩

/-! ### Claim theorems -/

/-- C1 (amended): for every chain of append calls accepted from a fresh
builder, `stringify` returns the concatenation, in fixed category order 1→6
with no separators, of the last element value verbatim, `#`+the last id
value, `.`+each class, `[`+each attribute+`]`, `:`+each pseudo-class and
`::`+each pseudo-element, in append order — except that the element and id
fragments are omitted when the stored value is the empty string (falsy); an
empty chain renders to `""` and the scenario chain renders to
`"a#x.c1.c2[href]:hover::before"`. -/
theorem C1_render_concat :
    (∀ (ops : List AppendOp) (s' : CSSSelector),
      runOps CSSSelector.new ops = (none, s') →
      CSSSelector.stringify s' =
        renderOpt "" (opLastElement ops) ++ renderOpt "#" (opLastId ops)
        ++ String.join ((opClasses ops).map (fun c => "." ++ c))
        ++ String.join ((opAttributes ops).map (fun a => "[" ++ a ++ "]"))
        ++ String.join ((opPseudoClasses ops).map (fun p => ":" ++ p))
        ++ String.join ((opPseudoElements ops).map (fun p => "::" ++ p))) ∧
    (runOps CSSSelector.new [AppendOp.element "a", AppendOp.id "x",
      AppendOp.class' "c1", AppendOp.class' "c2", AppendOp.attr "href",
      AppendOp.pseudoClass "hover", AppendOp.pseudoElement "before"]).1 = none ∧
    CSSSelector.stringify (runOps CSSSelector.new [AppendOp.element "a",
      AppendOp.id "x", AppendOp.class' "c1", AppendOp.class' "c2",
      AppendOp.attr "href", AppendOp.pseudoClass "hover",
      AppendOp.pseudoElement "before"]).2 = "a#x.c1.c2[href]:hover::before" := by
  refine ⟨?_, by decide, by decide⟩
  intro ops s' h
  obtain ⟨g1, g2, g3, g4, g5, g6⟩ := runOps_parts ops CSSSelector.new s' h
  simp only [CSSSelector.new] at g1 g2 g3 g4 g5 g6
  rw [overrideOpt_none] at g1 g2
  simp only [List.nil_append] at g3 g4 g5 g6
  simp only [CSSSelector.stringify]
  rw [g1, g2, g3, g4, g5, g6]
  rw [join_append, join_append, join_append, join_append, join_append]
  rw [join_element_slot, join_id_slot]

/-- Witness for `C1_render_concat` at the accepted chain element `"div"`,
id `"main"`, class `"a"`, class `"b"`. -/
theorem C1_witness :
    CSSSelector.stringify
      { parts := { element := some "div", id := some "main", classes := ["a", "b"],
                   attributes := [], pseudoClasses := [], pseudoElements := [] },
        order := [PartKey.element, PartKey.id, PartKey.classes, PartKey.classes] }
      = "div#main.a.b" := by
  have h := C1_render_concat.1
    [AppendOp.element "div", AppendOp.id "main", AppendOp.class' "a", AppendOp.class' "b"]
    { parts := { element := some "div", id := some "main", classes := ["a", "b"],
                 attributes := [], pseudoClasses := [], pseudoElements := [] },
      order := [PartKey.element, PartKey.id, PartKey.classes, PartKey.classes] }
    (by decide)
  exact h.trans (by decide)

/-- Counterexample to C1 as stated: the one-call chain `id("")` is accepted,
yet `stringify` returns `""` and not the concatenation `"#" ++ ""` (= `"#"`)
that the claim's formula demands. -/
theorem C1_counterexample :
    (runOps CSSSelector.new [AppendOp.id ""]).1 = none ∧
    CSSSelector.stringify (runOps CSSSelector.new [AppendOp.id ""]).2 = "" ∧
    ("" : String) ≠ "#" ++ "" :=
  ⟨by decide, by decide, by decide⟩

/-- C2 (amended): once the `id` slot holds a truthy (non-empty) value, a
later `id` append raises `DuplicateFragmentError` no matter which accepted
appends happen in between; likewise for `element`; and once
`pseudoElements` is non-empty a later `pseudoElement` append always raises
it.  (With an empty-string first value the guard does not fire.) -/
theorem C2_duplicate_guards (s : CSSSelector) (ops : List AppendOp)
    (s' : CSSSelector) (w : String) (hrun : runOps s ops = (none, s')) :
    (truthy s.parts.id = true →
      (CSSSelector.id s' w).1 = some SelErr.duplicate) ∧
    (truthy s.parts.element = true →
      (CSSSelector.element s' w).1 = some SelErr.duplicate) ∧
    (s.parts.pseudoElements ≠ [] →
      (CSSSelector.pseudoElement s' w).1 = some SelErr.duplicate) := by
  obtain ⟨he, hi, hpe⟩ := runOps_preserves ops s s' hrun
  refine ⟨fun ht => ?_, fun ht => ?_, fun ht => ?_⟩
  · unfold CSSSelector.id
    rw [if_pos (hi ht)]
  · unfold CSSSelector.element
    rw [if_pos (he ht)]
  · unfold CSSSelector.pseudoElement
    rw [if_pos (List.length_pos.mpr (hpe ht))]

/-- Witness for `C2_duplicate_guards` on a state with truthy element and id
slots and a non-empty pseudo-element list, with an empty chain in between. -/
theorem C2_witness :
    (CSSSelector.id
      { parts := { element := some "a", id := some "x", classes := [],
                   attributes := [], pseudoClasses := [], pseudoElements := ["b"] },
        order := [] } "y").1 = some SelErr.duplicate ∧
    (CSSSelector.element
      { parts := { element := some "a", id := some "x", classes := [],
                   attributes := [], pseudoClasses := [], pseudoElements := ["b"] },
        order := [] } "y").1 = some SelErr.duplicate ∧
    (CSSSelector.pseudoElement
      { parts := { element := some "a", id := some "x", classes := [],
                   attributes := [], pseudoClasses := [], pseudoElements := ["b"] },
        order := [] } "y").1 = some SelErr.duplicate := by
  have h := C2_duplicate_guards
    { parts := { element := some "a", id := some "x", classes := [],
                 attributes := [], pseudoClasses := [], pseudoElements := ["b"] },
      order := [] } [] _ "y" rfl
  exact ⟨h.1 (by decide), h.2.1 (by decide), h.2.2 (by decide)⟩

/-- Counterexample to C2 as stated: after `id("")` (an accepted id append),
a second `id("x")` raises nothing at all and overwrites the slot. -/
theorem C2_counterexample :
    (runOps CSSSelector.new [AppendOp.id "", AppendOp.id "x"]).1 = none ∧
    (runOps CSSSelector.new [AppendOp.id "", AppendOp.id "x"]).2.parts.id = some "x" :=
  ⟨by decide, by decide⟩

/-- Witness for `C4_failed_append_state`: a `class` append after a
`pseudoClass` append throws and leaves the state untouched. -/
theorem C4_witness :
    (appendOp
      { parts := { element := none, id := none, classes := [], attributes := [],
                   pseudoClasses := ["hover"], pseudoElements := [] },
        order := [PartKey.pseudoClasses] } ( AppendOp.class' "c")).2
      = { parts := { element := none, id := none, classes := [], attributes := [],
                     pseudoClasses := ["hover"], pseudoElements := [] },
          order := [PartKey.pseudoClasses] } :=
  C4_failed_append_state _ ( AppendOp.class' "c") SelErr.orderViolation (by decide)

/-- C3 (amended): on a builder with at least one previously accepted append,
an append raises `OrderError` if and only if its duplicate guard does not
fire and its category rank is strictly below the rank of the most recently
accepted append (so equal ranks never raise `OrderError`, though `element`,
`id` and `pseudoElement` may still raise `DuplicateFragmentError`); in
particular `class` after `pseudoClass` always raises `OrderError` and
`class` after `class` never raises. -/
theorem C3_order_check (s : CSSSelector) (op : AppendOp) (last : PartKey)
    (hl : s.order.getLast? = some last) :
    ((appendOp s op).1 = some SelErr.orderViolation ↔
      (dupCheck s op = false ∧ orderMap (opKey op) < orderMap last)) ∧
    (last = PartKey.pseudoClasses →
      ∀ v, (CSSSelector.class' s v).1 = some SelErr.orderViolation) ∧
    (last = PartKey.classes → ∀ v, (CSSSelector.class' s v).1 = none) := by
  refine ⟨?_, ?_, ?_⟩
  · cases op with
    | element v =>
        simp only [appendOp, dupCheck, opKey]
        unfold CSSSelector.element
        by_cases hg : truthy s.parts.element
        · simp [hg]
        · rw [if_neg hg, checkOrder_last s PartKey.element last hl]
          by_cases hlt : orderMap PartKey.element < orderMap last
          · simp [hlt, Bool.eq_false_iff, hg]
          · simp [hlt]
    | id v =>
        simp only [appendOp, dupCheck, opKey]
        unfold CSSSelector.id
        by_cases hg : truthy s.parts.id
        · simp [hg]
        · rw [if_neg hg, checkOrder_last s PartKey.id last hl]
          by_cases hlt : orderMap PartKey.id < orderMap last
          · simp [hlt, Bool.eq_false_iff, hg]
          · simp [hlt]
    | class' v =>
        simp only [appendOp, dupCheck, opKey]
        unfold CSSSelector.class'
        rw [checkOrder_last s PartKey.classes last hl]
        by_cases hlt : orderMap PartKey.classes < orderMap last
        · simp [hlt]
        · simp [hlt]
    | attr v =>
        simp only [appendOp, dupCheck, opKey]
        unfold CSSSelector.attr
        rw [checkOrder_last s PartKey.attributes last hl]
        by_cases hlt : orderMap PartKey.attributes < orderMap last
        · simp [hlt]
        · simp [hlt]
    | pseudoClass v =>
        simp only [appendOp, dupCheck, opKey]
        unfold CSSSelector.pseudoClass
        rw [checkOrder_last s PartKey.pseudoClasses last hl]
        by_cases hlt : orderMap PartKey.pseudoClasses < orderMap last
        · simp [hlt]
        · simp [hlt]
    | pseudoElement v =>
        simp only [appendOp, dupCheck, opKey]
        unfold CSSSelector.pseudoElement
        by_cases hg : s.parts.pseudoElements.length > 0
        · simp [hg]
        · rw [if_neg hg, checkOrder_last s PartKey.pseudoElements last hl]
          by_cases hlt : orderMap PartKey.pseudoElements < orderMap last
          · simp [hlt, hg]
          · simp [hlt]
  · rintro rfl v
    unfold CSSSelector.class'
    rw [checkOrder_last s PartKey.classes PartKey.pseudoClasses hl]
    simp [orderMap]
  · rintro rfl v
    unfold CSSSelector.class'
    rw [checkOrder_last s PartKey.classes PartKey.classes hl]
    simp [orderMap]

/-- Witness for `C3_order_check`: a `class` append after an accepted
`pseudoClass` append raises the order error. -/
theorem C3_witness :
    (CSSSelector.class'
      { parts := { element := none, id := none, classes := [], attributes := [],
                   pseudoClasses := ["hover"], pseudoElements := [] },
        order := [PartKey.pseudoClasses] } "c").1 = some SelErr.orderViolation := by
  have h := C3_order_check
    { parts := { element := none, id := none, classes := [], attributes := [],
                 pseudoClasses := ["hover"], pseudoElements := [] },
      order := [PartKey.pseudoClasses] } ( AppendOp.class' "c") PartKey.pseudoClasses rfl
  exact h.2.1 rfl "c"

/-- Counterexample to C3 as stated: with `element` already appended, a second
`element` append has an equal category rank (1 = 1) yet is not accepted, and
after `element` then `class` a further `element` append has a strictly lower
rank (1 < 3) yet raises the duplicate error, not `OrderError`. -/
theorem C3_counterexample :
    (runOps CSSSelector.new [AppendOp.element "a", AppendOp.element "b"]).1
        = some SelErr.duplicate ∧
    (runOps CSSSelector.new
        [AppendOp.element "a", AppendOp.class' "c", AppendOp.element "x"]).1
        = some SelErr.duplicate :=
  ⟨by decide, by decide⟩

/-- Rendering a combined selector yields exactly the combined string: the
string written into the element slot always contains two spaces, so it is
truthy and all other slots are empty. -/
theorem combine_stringify (s1 : CSSSelector) (c : String) (s2 : CSSSelector) :
    CSSSelector.stringify (cssSelectorBuilder.combine s1 c s2)
      = CSSSelector.stringify s1 ++ " " ++ c ++ " " ++ CSSSelector.stringify s2 := by
  simp [cssSelectorBuilder.combine, CSSSelector.new, CSSSelector.stringify, truthy,
    combined_isEmpty_false, join_singleton]

/-- C5: for all selectors and every combinator string, the combined selector
renders to `render(left) + " " + combinator + " " + render(right)`, with the
combinator embedded verbatim and unvalidated; in particular
`combine(fromClass("a"), ">", fromId("b"))` renders to `".a > #b"`. -/
theorem C5_combine_render :
    (∀ (s1 : CSSSelector) (c : String) (s2 : CSSSelector),
      CSSSelector.stringify (cssSelectorBuilder.combine s1 c s2)
        = CSSSelector.stringify s1 ++ " " ++ c ++ " " ++ CSSSelector.stringify s2) ∧
    ( cssSelectorBuilder.class' "a").1 = none ∧
    (cssSelectorBuilder.id "b").1 = none ∧
    CSSSelector.stringify (cssSelectorBuilder.combine
      ( cssSelectorBuilder.class' "a").2 ">" (cssSelectorBuilder.id "b").2)
      = ".a > #b" :=
  ⟨combine_stringify, by decide, by decide, by decide⟩

/-- C6 (amended): a selector produced by `combine` does not accept a further
`.element(...)` append: the combined string (which always contains two
spaces, hence is truthy) sits in the `element` slot of the fresh instance, so
the duplicate guard fires and the state is left unchanged; the synthetic
append history of a combined selector is empty, not category 1. -/
theorem C6_combined_rejects_element (s1 : CSSSelector) (c : String)
    (s2 : CSSSelector) (v : String) :
    (CSSSelector.element (cssSelectorBuilder.combine s1 c s2) v).1
        = some SelErr.duplicate ∧
    (CSSSelector.element (cssSelectorBuilder.combine s1 c s2) v).2
        = cssSelectorBuilder.combine s1 c s2 ∧
    (cssSelectorBuilder.combine s1 c s2).order = [] := by
  refine ⟨?_, ?_, rfl⟩ <;>
    simp [CSSSelector.element, cssSelectorBuilder.combine, CSSSelector.new,
      truthy, combined_isEmpty_false]

/-- Counterexample to C6 as stated: appending `.element("x")` to
`combine(fromClass("a"), ">", fromId("b"))` raises the duplicate error
instead of being accepted. -/
theorem C6_counterexample :
    (CSSSelector.element (cssSelectorBuilder.combine
      ( cssSelectorBuilder.class' "a").2 ">" (cssSelectorBuilder.id "b").2) "x").1
      = some SelErr.duplicate := by decide

/-- C7: each of the six factory entry points succeeds (throws nothing) for
every value: on a fresh empty builder neither the duplicate guards nor the
order check can fire. -/
theorem C7_factories_never_fail (v : String) :
    (cssSelectorBuilder.element v).1 = none ∧
    (cssSelectorBuilder.id v).1 = none ∧
    (cssSelectorBuilder.class' v).1 = none ∧
    (cssSelectorBuilder.attr v).1 = none ∧
    (cssSelectorBuilder.pseudoClass v).1 = none ∧
    (cssSelectorBuilder.pseudoElement v).1 = none :=
  ⟨rfl, rfl, rfl, rfl, rfl, rfl⟩

/-- C8: `stringify` is pure and idempotent: a call leaves the instance's
state unchanged, and a second call on that state returns the same string. -/
theorem C8_stringify_pure_idempotent (s : CSSSelector) :
    (CSSSelector.stringifyM s).2 = s ∧
    (CSSSelector.stringifyM (CSSSelector.stringifyM s).2).1
      = (CSSSelector.stringifyM s).1 :=
  ⟨rfl, rfl⟩

/-- C9 (amended): a selector returned by `combine` has an empty append
history, so each of the five non-element appends succeeds on it for every
value, and a second `pseudoElement` then raises the duplicate error; the new
fragment is rendered after the combined string in its usual category
position, except that an empty id value is omitted by `stringify` (the id
fragment appears only for non-empty values). -/
theorem C9_combined_appends (s1 : CSSSelector) (c : String) (s2 : CSSSelector)
    (comb : CSSSelector) (v w : String)
    (hcomb : comb = cssSelectorBuilder.combine s1 c s2) :
    comb.order = [] ∧
    (CSSSelector.id comb v).1 = none ∧
    (CSSSelector.class' comb v).1 = none ∧
    (CSSSelector.attr comb v).1 = none ∧
    (CSSSelector.pseudoClass comb v).1 = none ∧
    (CSSSelector.pseudoElement comb v).1 = none ∧
    (v.isEmpty = false →
      CSSSelector.stringify (CSSSelector.id comb v).2
        = CSSSelector.stringify comb ++ "#" ++ v) ∧
    CSSSelector.stringify (CSSSelector.class' comb v).2
      = CSSSelector.stringify comb ++ "." ++ v ∧
    CSSSelector.stringify (CSSSelector.attr comb v).2
      = CSSSelector.stringify comb ++ "[" ++ v ++ "]" ∧
    CSSSelector.stringify (CSSSelector.pseudoClass comb v).2
      = CSSSelector.stringify comb ++ ":" ++ v ∧
    CSSSelector.stringify (CSSSelector.pseudoElement comb v).2
      = CSSSelector.stringify comb ++ "::" ++ v ∧
    (CSSSelector.pseudoElement (CSSSelector.pseudoElement comb v).2 w).1
      = some SelErr.duplicate := by
  subst hcomb
  refine ⟨rfl, rfl, rfl, rfl, rfl, rfl, fun hv => ?_, ?_, ?_, ?_, ?_, rfl⟩
  · have hres : CSSSelector.id (cssSelectorBuilder.combine s1 c s2) v
        = (none, { parts := { element := some (CSSSelector.stringify s1 ++ " " ++ c
                                ++ " " ++ CSSSelector.stringify s2),
                              id := some v, classes := [], attributes := [],
                              pseudoClasses := [], pseudoElements := [] },
                   order := [PartKey.id] }) := rfl
    rw [hres, combine_stringify]
    apply String.ext
    simp [CSSSelector.stringify, truthy, combined_isEmpty_false, hv,
      String.join_eq, String.data_append]
  · have hres : CSSSelector.class' (cssSelectorBuilder.combine s1 c s2) v
        = (none, { parts := { element := some (CSSSelector.stringify s1 ++ " " ++ c
                                ++ " " ++ CSSSelector.stringify s2),
                              id := none, classes := [v], attributes := [],
                              pseudoClasses := [], pseudoElements := [] },
                   order := [PartKey.classes] }) := rfl
    rw [hres, combine_stringify]
    apply String.ext
    simp [CSSSelector.stringify, truthy, combined_isEmpty_false,
      String.join_eq, String.data_append]
  · have hres : CSSSelector.attr (cssSelectorBuilder.combine s1 c s2) v
        = (none, { parts := { element := some (CSSSelector.stringify s1 ++ " " ++ c
                                ++ " " ++ CSSSelector.stringify s2),
                              id := none, classes := [], attributes := [v],
                              pseudoClasses := [], pseudoElements := [] },
                   order := [PartKey.attributes] }) := rfl
    rw [hres, combine_stringify]
    apply String.ext
    simp [CSSSelector.stringify, truthy, combined_isEmpty_false,
      String.join_eq, String.data_append]
  · have hres : CSSSelector.pseudoClass (cssSelectorBuilder.combine s1 c s2) v
        = (none, { parts := { element := some (CSSSelector.stringify s1 ++ " " ++ c
                                ++ " " ++ CSSSelector.stringify s2),
                              id := none, classes := [], attributes := [],
                              pseudoClasses := [v], pseudoElements := [] },
                   order := [PartKey.pseudoClasses] }) := rfl
    rw [hres, combine_stringify]
    apply String.ext
    simp [CSSSelector.stringify, truthy, combined_isEmpty_false,
      String.join_eq, String.data_append]
  · have hres : CSSSelector.pseudoElement (cssSelectorBuilder.combine s1 c s2) v
        = (none, { parts := { element := some (CSSSelector.stringify s1 ++ " " ++ c
                                ++ " " ++ CSSSelector.stringify s2),
                              id := none, classes := [], attributes := [],
                              pseudoClasses := [], pseudoElements := [v] },
                   order := [PartKey.pseudoElements] }) := rfl
    rw [hres, combine_stringify]
    apply String.ext
    simp [CSSSelector.stringify, truthy, combined_isEmpty_false,
      String.join_eq, String.data_append]

/-- Witness for `C9_combined_appends`: appending `id("x")` to
`combine(fromClass("a"), ">", fromId("b"))` renders `".a > #b#x"`. -/
theorem C9_witness :
    CSSSelector.stringify (CSSSelector.id (cssSelectorBuilder.combine
      ( cssSelectorBuilder.class' "a").2 ">" (cssSelectorBuilder.id "b").2) "x").2
      = ".a > #b#x" := by
  have h := C9_combined_appends ( cssSelectorBuilder.class' "a").2 ">"
    (cssSelectorBuilder.id "b").2 _ "x" "y" rfl
  exact (h.2.2.2.2.2.2.1 (by decide)).trans (by decide)

/-- Counterexample to C9 as stated: appending `id("")` to a combined selector
succeeds, but its `#`-fragment is not rendered — `stringify` still returns
just the combined string, not the combined string followed by `"#"`. -/
theorem C9_counterexample :
    (CSSSelector.id (cssSelectorBuilder.combine
      ( cssSelectorBuilder.class' "a").2 ">" (cssSelectorBuilder.id "b").2) "").1
      = none ∧
    CSSSelector.stringify (CSSSelector.id (cssSelectorBuilder.combine
      ( cssSelectorBuilder.class' "a").2 ">" (cssSelectorBuilder.id "b").2) "").2
      = ".a > #b" ∧
    (".a > #b" : String) ≠ ".a > #b" ++ "#" ++ "" :=
  ⟨by decide, by decide, by decide⟩

/-- C10: the duplicate guards of `element` and `id` test truthiness of the
stored value, not whether it was ever set: after `element("")` a further
`element(v)` is accepted and overwrites the slot, likewise for `id("")`;
and `stringify` omits the element fragment and the `#`+id fragment whenever
the stored value is falsy (the empty string renders like an absent slot). -/
theorem C10_truthy_guards (s : CSSSelector) (v : String) :
    ((CSSSelector.element s "").1 = none →
      (CSSSelector.element (CSSSelector.element s "").2 v).1 = none ∧
      (CSSSelector.element (CSSSelector.element s "").2 v).2.parts.element = some v) ∧
    ((CSSSelector.id s "").1 = none →
      (CSSSelector.id (CSSSelector.id s "").2 v).1 = none ∧
      (CSSSelector.id (CSSSelector.id s "").2 v).2.parts.id = some v) ∧
    (s.parts.element = some "" →
      CSSSelector.stringify s
        = CSSSelector.stringify { s with parts := { s.parts with element := none } }) ∧
    (s.parts.id = some "" →
      CSSSelector.stringify s
        = CSSSelector.stringify { s with parts := { s.parts with id := none } }) := by
  have htre : truthy (some "") = false := by decide
  refine ⟨fun h1 => ?_, fun h2 => ?_, fun h3 => ?_, fun h4 => ?_⟩
  · have hres : CSSSelector.element s "" = (none, (CSSSelector.element s "").2) := by
      rcases hp : CSSSelector.element s "" with ⟨oe, s1⟩
      rw [hp] at h1
      cases oe with
      | some e => simp at h1
      | none => rfl
    have happ := element_ok s "" _ hres
    rw [happ]
    constructor <;>
      · unfold CSSSelector.element CSSSelector.checkOrder
        simp [htre, List.getLast?_concat, orderMap]
  · have hres : CSSSelector.id s "" = (none, (CSSSelector.id s "").2) := by
      rcases hp : CSSSelector.id s "" with ⟨oe, s1⟩
      rw [hp] at h2
      cases oe with
      | some e => simp at h2
      | none => rfl
    have happ := id_ok s "" _ hres
    rw [happ]
    constructor <;>
      · unfold CSSSelector.id CSSSelector.checkOrder
        simp [htre, List.getLast?_concat, orderMap]
  · have hemp : String.isEmpty "" = true := rfl
    simp only [CSSSelector.stringify]
    rw [h3]
    simp [htre, truthy, hemp]
  · have hemp : String.isEmpty "" = true := rfl
    simp only [CSSSelector.stringify]
    rw [h4]
    simp [htre, truthy, hemp]

/-- Witness for `C10_truthy_guards` on a builder whose element and id slots
both hold the empty string. -/
theorem C10_witness :
    (CSSSelector.element (CSSSelector.element
      { parts := { element := some "", id := some "", classes := [], attributes := [],
                   pseudoClasses := [], pseudoElements := [] },
        order := [] } "").2 "x").2.parts.element = some "x" ∧
    CSSSelector.stringify
      { parts := { element := some "", id := some "", classes := [], attributes := [],
                   pseudoClasses := [], pseudoElements := [] },
        order := [] }
      = CSSSelector.stringify
      { parts := { element := none, id := some "", classes := [], attributes := [],
                   pseudoClasses := [], pseudoElements := [] },
        order := [] } := by
  have h := C10_truthy_guards
    { parts := { element := some "", id := some "", classes := [], attributes := [],
                 pseudoClasses := [], pseudoElements := [] },
      order := [] } "x"
  exact ⟨(h.1 (by decide)).2, h.2.2.1 rfl⟩
